import Mathlib

/-!
Verification development for the rule-based static-analysis engine in
`Code_Analyzer_with_GitHub_Integration.py` (class `EnhancedCodeAnalyzer`).

Modelling choices:
* Source text is a `List Char`; lines are obtained by splitting on the newline
  character, matching Python's `str.split('\n')`.
* The Python standard-library parser `ast.parse` is external to the repository;
  it is modelled as an abstract deterministic function
  `parse : List Char → Except SyntaxErr PyNode` passed to `analyze_code`.
  All internal parses of the same text (in the syntax, dead-code and complexity
  passes) therefore agree, as they do in Python.
* The Python syntax-tree node kinds inspected by the analyzer (`FunctionDef`,
  `Assign`, `If`, `While`, `For`, `Try`, `ExceptHandler`, `Name`, `BoolOp`,
  `Call`, constants, expression statements, `Return`, `Pass`) are the
  constructors of `PyNode`.  `ast.walk` enumerates every node of the tree; the
  analyzer's uses of the enumeration (set collection, counting, per-node
  pattern checks) are insensitive to enumeration order, and we enumerate in
  depth-first preorder.
* The `re` patterns of the source are compiled to a small explicit regex
  engine (`RAtom`/`RE`/`matchHere`) covering exactly the constructs the
  patterns use: literals, `\s`, `.`, character classes, `\d`, `\w`,
  star/plus over single-character atoms, and word boundaries.
* Numeric report fields are exact: the scores are integers in Python as well;
  the only floats produced (`0.0`, `1.0`, complexity as a whole number, and
  the comment ratio) carry exactly representable values, modelled as
  `Nat`/`Int`/`Rat`.  The wall-clock field `processing_time_ms` is the one
  report field not modelled.
-/

/-! ## Character and string utilities (Python `str` operations) -/

/-- Python whitespace for `str.strip` and the regex class `\s`. -/
def isPySpace (c : Char) : Bool :=
  c = ' ' || c = '\t' || c = '\n' || c = '\r' || c = '\x0b' || c = '\x0c'

/-- Python `str.strip()` on a list of characters. -/
def trimChars (l : List Char) : List Char :=
  ((l.dropWhile isPySpace).reverse.dropWhile isPySpace).reverse

/-- Python `code.split('\n')`: always at least one (possibly empty) line. -/
def splitOnNl : List Char → List (List Char)
  | [] => [[]]
  | c :: rest =>
    if c = '\n' then [] :: splitOnNl rest
    else
      match splitOnNl rest with
      | [] => [[c]]
      | l :: ls => (c :: l) :: ls

/-- Python substring containment `sub in s`. -/
def containsSub (sub : List Char) : List Char → Bool
  | [] => sub.isEmpty
  | c :: rest => sub.isPrefixOf (c :: rest) || containsSub sub rest

/-- Characters of a string literal. -/
def cs (s : String) : List Char := s.toList

/-- Python `enumerate(lines, 1)`, building 1-based indices. -/
def enumFrom : Nat → List α → List (Nat × α)
  | _, [] => []
  | i, x :: xs => (i, x) :: enumFrom (i + 1) xs

/-! ## A small regex engine for the source's `re` patterns -/

/-- Word character, as in the regex classes `\w` and `\b` (ASCII fragment,
which covers all characters the analyzed patterns can meet). -/
def isWordChar (c : Char) : Bool := c.isAlphanum || c = '_'

/-- Single-character regex atoms used by the source's patterns. -/
inductive RAtom where
  | lit (c : Char)
  | ws
  | anyc
  | inSet (l : List Char)
  | notInSet (l : List Char)
  | digit
  | wordc
deriving DecidableEq

/-- A regex is a sequence of atoms, starred atoms, and trailing
word-boundary markers (the only constructs the source's patterns use). -/
inductive RE where
  | once (a : RAtom)
  | star (a : RAtom)
  | boundNW
deriving DecidableEq

def atomMatch : RAtom → Char → Bool
  | .lit c, d => d = c
  | .ws, d => isPySpace d
  | .anyc, d => d ≠ '\n'
  | .inSet l, d => l.contains d
  | .notInSet l, d => !(l.contains d)
  | .digit, d => d.isDigit
  | .wordc, d => isWordChar d

/-- Backtracking matcher with an explicit step bound: the bound only makes
the recursion structural (every recursive call decreases
`pat.length + s.length`, and the bound passed by `matchHere` exceeds that
measure, so the `0` case is never reached). -/
def matchFuel : Nat → List RE → List Char → Bool
  | 0, _, _ => false
  | _ + 1, [], _ => true
  | _ + 1, .once _ :: _, [] => false
  | f + 1, .once a :: rs, c :: s => atomMatch a c && matchFuel f rs s
  | f + 1, .star a :: rs, s =>
    matchFuel f rs s ||
      (match s with
       | [] => false
       | c :: s' => atomMatch a c && matchFuel f (.star a :: rs) s')
  | f + 1, .boundNW :: rs, [] => matchFuel f rs []
  | f + 1, .boundNW :: rs, c :: s => !(isWordChar c) && matchFuel f rs (c :: s)

/-- Backtracking matcher: does the pattern match a prefix of `s`
(as `re.match` does at a fixed start position)? -/
def matchHere (pat : List RE) (s : List Char) : Bool :=
  matchFuel (pat.length + s.length + 1) pat s

/-- `re.search`: the pattern matches starting at some position. -/
def reSearch (pat : List RE) : List Char → Bool
  | [] => matchHere pat []
  | c :: s => matchHere pat (c :: s) || reSearch pat s

/-- `re.search` for a pattern beginning with `\b` whose first atom is a word
character: a match may start only after a non-word character or at the
start of the line.  `prev` is the character preceding the current position. -/
def searchWB (pat : List RE) : Option Char → List Char → Bool
  | prev, [] =>
    (match prev with | none => true | some c => !(isWordChar c)) && matchHere pat []
  | prev, c :: s =>
    ((match prev with | none => true | some d => !(isWordChar d)) && matchHere pat (c :: s))
      || searchWB pat (some c) s

/-- Sequence of literal atoms for a literal fragment of a pattern. -/
def lits (s : String) : List RE := s.toList.map (fun c => RE.once (RAtom.lit c))

/-- The regex character class `["\']`. -/
def quoteSet : List Char := ['"', '\'']

/-! ## The syntax-tree model (the `ast` node kinds the analyzer inspects) -/

/-- Expression context of an `ast.Name` node. -/
inductive Ctx where
  | load
  | store
  | del
deriving DecidableEq

/-- Python syntax-tree nodes, restricted to the node kinds the analyzer
distinguishes; every other construct is represented by the catch-all
constant node.  Every node except `module` carries its `lineno`. -/
inductive PyNode where
  | module (body : List PyNode)
  | functionDef (lineno : Nat) (fname : String) (body : List PyNode)
  | assign (lineno : Nat) (targets : List PyNode) (value : PyNode)
  | ifNode (lineno : Nat) (test : PyNode) (body orelse : List PyNode)
  | whileNode (lineno : Nat) (test : PyNode) (body orelse : List PyNode)
  | forNode (lineno : Nat) (target iter : PyNode) (body orelse : List PyNode)
  | tryNode (lineno : Nat) (body : List PyNode) (handlers : List PyNode)
      (orelse finalbody : List PyNode)
  | exceptHandler (lineno : Nat) (htype : Option PyNode) (hname : Option String)
      (body : List PyNode)
  | nameNode (lineno : Nat) (id : String) (ctx : Ctx)
  | boolOp (lineno : Nat) (values : List PyNode)
  | callNode (lineno : Nat) (func : PyNode) (args : List PyNode)
  | constNode (lineno : Nat)
  | exprStmt (lineno : Nat) (value : PyNode)
  | returnStmt (lineno : Nat) (value : Option PyNode)
  | passNode (lineno : Nat)

mutual
/-- The function `ast.walk`: enumerate a node and all of its descendants.  The
source's uses are order-insensitive, so the (breadth-first) order of Python's
`ast.walk` is modelled by depth-first preorder. -/
def walk : PyNode → List PyNode
  | .module body => .module body :: walkList body
  | .functionDef ln nm body => .functionDef ln nm body :: walkList body
  | .assign ln ts v => .assign ln ts v :: (walkList ts ++ walk v)
  | .ifNode ln t b e => .ifNode ln t b e :: (walk t ++ walkList b ++ walkList e)
  | .whileNode ln t b e => .whileNode ln t b e :: (walk t ++ walkList b ++ walkList e)
  | .forNode ln tg it b e =>
      .forNode ln tg it b e :: (walk tg ++ walk it ++ walkList b ++ walkList e)
  | .tryNode ln b h o f =>
      .tryNode ln b h o f :: (walkList b ++ walkList h ++ walkList o ++ walkList f)
  | .exceptHandler ln t n b => .exceptHandler ln t n b :: (walkOpt t ++ walkList b)
  | .nameNode ln id ctx => [.nameNode ln id ctx]
  | .boolOp ln vs => .boolOp ln vs :: walkList vs
  | .callNode ln f as => .callNode ln f as :: (walk f ++ walkList as)
  | .constNode ln => [.constNode ln]
  | .exprStmt ln v => .exprStmt ln v :: walk v
  | .returnStmt ln v => .returnStmt ln v :: walkOpt v
  | .passNode ln => [.passNode ln]

def walkList : List PyNode → List PyNode
  | [] => []
  | n :: ns => walk n ++ walkList ns

def walkOpt : Option PyNode → List PyNode
  | none => []
  | some n => walk n
end

/-- The outcome of a failed `ast.parse`: a Python `SyntaxError`, carrying
`msg`, `lineno` and `text`. -/
structure SyntaxErr where
  msg : String
  lineno : Option Nat
  text : Option String
deriving DecidableEq

/-! ## Data model: `Severity`, `Issue`, options, metrics, report -/

/-- The `Severity` enumeration of the source. -/
inductive Severity where
  | critical
  | error
  | warning
  | info
deriving DecidableEq

/-- The `Issue` dataclass of the source. -/
structure Issue where
  line_number : Nat
  severity : Severity
  issue_type : String
  description : String
  code_snippet : String
  suggested_fix : Option String := none
  explanation : Option String := none
  cwe_id : Option String := none
deriving DecidableEq

/-- The options dictionary passed to `analyze_code`: `options.get(k, True)`
for the seven category keys.  Field `syntaxOn` stands for the key named after
the syntactic category, `codeSmellsOn` for `code_smells`, and so on. -/
structure AnalysisOptions where
  syntaxOn : Bool := true
  securityOn : Bool := true
  performanceOn : Bool := true
  codeSmellsOn : Bool := true
  complexityOn : Bool := true
  deadCodeOn : Bool := true
  typeHintsOn : Bool := true
deriving DecidableEq

/-- The dictionary returned by `_calculate_metrics`.  The comment ratio is a
true float division in Python; it is modelled exactly as a rational. -/
structure Metrics where
  total_lines : Nat
  code_lines : Nat
  comment_lines : Nat
  blank_lines : Nat
  security_score : Int
  performance_score : Int
  maintainability : Int
  code_to_comment_ratio : Rat
deriving DecidableEq

/-- The dictionary returned by `analyze_code`, minus the wall-clock field
`processing_time_ms`.  The issue dictionaries produced by `_issue_to_dict`
are field-for-field copies of `Issue`, so the `issues` entry keeps the
`Issue` records themselves. -/
structure Report where
  total_issues : Nat
  critical : Nat
  errors : Nat
  warnings : Nat
  info : Nat
  complexity_score : Nat
  maintainability_index : Int
  security_score : Int
  performance_score : Int
  issues : List Issue
  summary : String
  metrics : Metrics
deriving DecidableEq

/-! ## Lexical passes: `_check_security`, `_check_performance`,
`_check_code_smells`, `_suggest_type_hints` -/

/-- Snippet `line.strip()` rendered back to a string. -/
def stripS (line : List Char) : String := String.mk (trimChars line)

/-- The pattern of the SQL-injection rule. -/
def sqlInjPat : List RE :=
  lits "execute" ++ [.star .ws, .once (.lit '('), .once (.inSet quoteSet), .star .anyc]
    ++ lits "%s"
    ++ [.star .anyc, .once (.inSet quoteSet), .star .ws, .once (.lit '%')]

/-- The common tail of the three command-injection alternatives. -/
def cmdTail : List RE := [.star .anyc, .once (.lit '+'), .star .anyc, .once (.lit ')')]

/-- The command-injection rule: the top-level alternation of the pattern is
expanded into three searches. -/
def cmdInjHit (line : List Char) : Bool :=
  reSearch (lits "os.system(" ++ cmdTail) line
    || reSearch (lits "subprocess.call(" ++ cmdTail) line
    || reSearch (lits "subprocess.run(" ++ cmdTail) line

/-- The credential names of the hardcoded-credentials rule. -/
def credWords : List String := ["password", "passwd", "pwd", "secret", "token", "api_key"]

/-- Tail of the hardcoded-credentials pattern after the name alternation. -/
def credTail : List RE :=
  [.star .ws, .once (.lit '='), .star .ws, .once (.inSet quoteSet),
   .once (.notInSet quoteSet), .star (.notInSet quoteSet), .once (.inSet quoteSet)]

/-- The hardcoded-credentials rule: the case-insensitive flag is modelled by
lowercasing the line (the pattern's letters are lowercase). -/
def credsHit (line : List Char) : Bool :=
  credWords.any (fun w => reSearch (lits w ++ credTail) (line.map Char.toLower))

/-- The dynamic-evaluation rule: a word boundary, the builtin's name,
optional spaces, an opening parenthesis. -/
def evalHit (line : List Char) : Bool :=
  searchWB (lits "eval" ++ [.star .ws, .once (.lit '(')]) none line

/-- One source line of `_check_security` (lines 115-192 of the source):
the six security detectors applied to line `i`. -/
def sec_line_issues (i : Nat) (line : List Char) : List Issue :=
  (if reSearch sqlInjPat line then
    [{ line_number := i, severity := .critical, issue_type := "security",
       description := "SQL Injection vulnerability detected",
       code_snippet := stripS line,
       suggested_fix := some "Use parameterized queries: cursor.execute(\"SELECT * FROM users WHERE id = ?\", (user_id,))",
       explanation := some "Never use string formatting with SQL queries",
       cwe_id := some "CWE-89" }] else [])
  ++ (if cmdInjHit line then
    [{ line_number := i, severity := .critical, issue_type := "security",
       description := "Command Injection vulnerability",
       code_snippet := stripS line,
       suggested_fix := some "Use subprocess with list arguments: subprocess.run([\"command\", arg1, arg2])",
       explanation := some "Never concatenate user input into shell commands",
       cwe_id := some "CWE-78" }] else [])
  ++ (if credsHit line then
    [{ line_number := i, severity := .critical, issue_type := "security",
       description := "Hardcoded credentials detected",
       code_snippet := stripS line,
       suggested_fix := some "Use environment variables: password = os.getenv(\"DB_PASSWORD\")",
       explanation := some "Never hardcode sensitive credentials in code",
       cwe_id := some "CWE-798" }] else [])
  ++ (if containsSub (cs "md5") (line.map Char.toLower)
        || containsSub (cs "sha1") (line.map Char.toLower) then
    [{ line_number := i, severity := .warning, issue_type := "security",
       description := "Weak cryptographic algorithm",
       code_snippet := stripS line,
       suggested_fix := some "Use SHA-256 or better: hashlib.sha256(data.encode())",
       explanation := some "MD5 and SHA1 are cryptographically broken",
       cwe_id := some "CWE-327" }] else [])
  ++ (if evalHit line then
    [{ line_number := i, severity := .critical, issue_type := "security",
       description := "Dangerous eval() usage",
       code_snippet := stripS line,
       suggested_fix := some "Use ast.literal_eval() for safe evaluation or parse manually",
       explanation := some "eval() can execute arbitrary code",
       cwe_id := some "CWE-95" }] else [])
  ++ (if containsSub (cs "pickle.loads") line then
    [{ line_number := i, severity := .warning, issue_type := "security",
       description := "Unsafe deserialization with pickle",
       code_snippet := stripS line,
       suggested_fix := some "Use json.loads() for untrusted data",
       explanation := some "Pickle can execute arbitrary code during deserialization",
       cwe_id := some "CWE-502" }] else [])

/-- The method `_check_security`. -/
def check_security (lines : List (List Char)) : List Issue :=
  (enumFrom 1 lines).flatMap (fun p => sec_line_issues p.1 p.2)

/-- One source line of `_check_performance` (lines 198-234).  The condition of
the concatenation rule is translated with Python's operator precedence:
`count('+') > 2 and DQUOTE in line or QUOTE in line` parses as
`(count('+') > 2 and DQUOTE in line) or (QUOTE in line)`. -/
def perf_line_issues (lines : List (List Char)) (i : Nat) (line : List Char) : List Issue :=
  (if containsSub (cs "+=") line
      && (containsSub (cs "list") line || containsSub (cs "array") line
            || containsSub (cs "[]") line) then
    (if decide (1 < i) && containsSub (cs "for") (lines.getD (i - 2) []) then
      [{ line_number := i, severity := .warning, issue_type := "performance",
         description := "Inefficient list concatenation in loop",
         code_snippet := stripS line,
         suggested_fix := some "Use list.append() or list comprehension",
         explanation := some "List concatenation is O(n), append is O(1)" }] else [])
   else [])
  ++ (if (decide (2 < line.count '+') && line.contains '"') || line.contains '\'' then
    [{ line_number := i, severity := .info, issue_type := "performance",
       description := "Multiple string concatenations",
       code_snippet := stripS line,
       suggested_fix := some "Use f-string or str.join(): f\"{var1}{var2}{var3}\"",
       explanation := some "String concatenation creates intermediate objects" }] else [])
  ++ (if containsSub (cs "global") line then
    [{ line_number := i, severity := .warning, issue_type := "performance",
       description := "Global variable usage affects performance",
       code_snippet := stripS line,
       suggested_fix := some "Use local variables or pass as parameters",
       explanation := some "Global lookups are slower than local lookups" }] else [])

/-- The method `_check_performance`. -/
def check_performance (lines : List (List Char)) : List Issue :=
  (enumFrom 1 lines).flatMap (fun p => perf_line_issues lines p.1 p.2)

/-- The magic-number pattern: word boundary, at least four digits, word
boundary. -/
def magicHit (line : List Char) : Bool :=
  searchWB [.once .digit, .once .digit, .once .digit, .once .digit, .star .digit, .boundNW]
    none line

/-- One source line of `_check_code_smells` (lines 240-285). -/
def smell_line_issues (i : Nat) (line : List Char) : List Issue :=
  (if decide (120 < line.length) then
    [{ line_number := i, severity := .info, issue_type := "style",
       description := "Line too long (>120 characters)",
       code_snippet := String.mk (line.take 50) ++ "...",
       suggested_fix := some "Break into multiple lines or refactor" }] else [])
  ++ (if magicHit line && !containsSub (cs "return") line then
    [{ line_number := i, severity := .info, issue_type := "style",
       description := "Magic number detected",
       code_snippet := stripS line,
       suggested_fix := some "Define as named constant: MAX_RETRIES = 1000",
       explanation := some "Magic numbers reduce code readability" }] else [])
  ++ (if ['#'].isPrefixOf (trimChars line)
        && (line.contains '(' || line.contains ')' || line.contains '='
              || line.contains '.') then
    [{ line_number := i, severity := .info, issue_type := "style",
       description := "Commented out code",
       code_snippet := stripS line,
       suggested_fix := some "Remove commented code, use version control",
       explanation := some "Commented code creates clutter" }] else [])
  ++ (if decide (0 < line.count ';') then
    [{ line_number := i, severity := .warning, issue_type := "style",
       description := "Multiple statements on one line",
       code_snippet := stripS line,
       suggested_fix := some "Put each statement on separate line" }] else [])

/-- The method `_check_code_smells`. -/
def check_code_smells (lines : List (List Char)) : List Issue :=
  (enumFrom 1 lines).flatMap (fun p => smell_line_issues p.1 p.2)

/-- The anchored pattern of the missing-type-hints rule. -/
def hintPat : List RE :=
  [.star .ws] ++ lits "def"
    ++ [.once .ws, .star .ws, .once .wordc, .star .wordc, .star .ws,
        .once (.lit '('), .star (.notInSet [')']), .once (.lit ')'),
        .star .ws, .once (.lit ':')]

/-- Python `line.split('(')[1].split(')')[0]`: the text after the first
opening parenthesis, cut at the next opening or closing parenthesis. -/
def paramSegment (line : List Char) : List Char :=
  (((line.dropWhile (· ≠ '(')).drop 1).takeWhile (· ≠ '(')).takeWhile (· ≠ ')')

/-- One source line of `_suggest_type_hints` (lines 322-334). -/
def hint_line_issues (i : Nat) (line : List Char) : List Issue :=
  if matchHere hintPat line then
    (if !containsSub (cs "->") line && !((paramSegment line).contains ':') then
      [{ line_number := i, severity := .info, issue_type := "type_hint",
         description := "Function missing type hints",
         code_snippet := stripS line,
         suggested_fix := some "def function(param: str) -> int:",
         explanation := some "Type hints improve code clarity and catch bugs" }] else [])
  else []

/-- The method `_suggest_type_hints`. -/
def suggest_type_hints (lines : List (List Char)) : List Issue :=
  (enumFrom 1 lines).flatMap (fun p => hint_line_issues p.1 p.2)

/-! ## Structural passes: `_check_syntax`, `_check_ast_patterns`,
`_detect_dead_code`, `_calculate_complexity` -/

/-- The method `_suggest_syntax_fix` (lines 445-451): substring tests on the
failure message. -/
def suggest_syntax_fix (e : SyntaxErr) : Option String :=
  if containsSub (cs "invalid syntax") (cs e.msg) then
    some "Check for missing colons, parentheses, or quotes"
  else if containsSub (cs "EOF") (cs e.msg) then
    some "Check for unclosed brackets, quotes, or parentheses"
  else none

/-- Python `e.lineno or 1`: `None` and the falsy `0` become `1`. -/
def lineno_or_one : Option Nat → Nat
  | none => 1
  | some 0 => 1
  | some (n + 1) => n + 1

/-- The single issue appended on a parse failure (lines 102-109). -/
def syntax_error_issue (e : SyntaxErr) : Issue :=
  { line_number := lineno_or_one e.lineno,
    severity := .error,
    issue_type := "syntax",
    description := "Syntax Error: " ++ e.msg,
    code_snippet := e.text.getD "",
    suggested_fix := suggest_syntax_fix e }

/-- Python truthiness of the optional handler name: `not node.name`. -/
def nameFalsy : Option String → Bool
  | none => true
  | some s => s = ""

/-- The method `_check_ast_patterns` (lines 453-467): an except-handler whose
type is the bare name `Exception` and which binds no name. -/
def check_ast_patterns (tree : PyNode) : List Issue :=
  (walk tree).flatMap fun n =>
    match n with
    | .exceptHandler ln (some (.nameNode _ id _)) nm _ =>
      if id = "Exception" && nameFalsy nm then
        [{ line_number := ln, severity := .info, issue_type := "style",
           description := "Catching Exception without using it",
           code_snippet := "",
           suggested_fix := some "except Exception as e: # Use e for logging" }]
      else []
    | _ => []

/-- The method `_check_syntax` (lines 95-109): on success run the tree-pattern
check, on failure append the single syntax-error issue. -/
def check_syntax_pass (parseRes : Except SyntaxErr PyNode) : List Issue :=
  match parseRes with
  | .ok tree => check_ast_patterns tree
  | .error e => [syntax_error_issue e]

/-- Defined names collected by `_detect_dead_code` from one walked node:
function-definition names and simple-name assignment targets. -/
def node_defined_names : PyNode → List String
  | .functionDef _ nm _ => [nm]
  | .assign _ ts _ =>
    ts.flatMap fun t =>
      match t with
      | .nameNode _ id _ => [id]
      | _ => []
  | _ => []

/-- Used names collected by `_detect_dead_code` from one walked node:
names in load context. -/
def node_used_names : PyNode → List String
  | .nameNode _ id .load => [id]
  | _ => []

/-- All defined names of a tree (the set `defined_names`, as a list). -/
def defined_names (tree : PyNode) : List String :=
  (walk tree).flatMap node_defined_names

/-- All used names of a tree (the set `used_names`, as a list). -/
def used_names (tree : PyNode) : List String :=
  (walk tree).flatMap node_used_names

/-- The issue reported for one unused name (lines 307-314). -/
def dead_issue (n : String) : Issue :=
  { line_number := 1, severity := .info, issue_type := "dead_code",
    description := "Unused variable or function: '" ++ n ++ "'",
    code_snippet := "",
    suggested_fix := some ("Remove unused " ++ n ++ " or prefix with _ if intentional") }

/-- The method `_detect_dead_code` (lines 287-316).  Python's sets are
modelled by deduplicated lists (set iteration order is arbitrary in Python;
a canonical order is fixed here); the bare `except: pass` makes a parse
failure yield no issues. -/
def detect_dead_code (parseRes : Except SyntaxErr PyNode) : List Issue :=
  match parseRes with
  | .error _ => []
  | .ok tree =>
    let unused :=
      (defined_names tree).dedup.filter (fun n => !((used_names tree).contains n))
    (unused.filter (fun n => !((cs "_").isPrefixOf (cs n)))).map dead_issue

/-- Contribution of one walked node to the cyclomatic complexity. -/
def node_complexity : PyNode → Nat
  | .ifNode .. => 1
  | .whileNode .. => 1
  | .forNode .. => 1
  | .exceptHandler .. => 1
  | .boolOp _ vs => vs.length - 1
  | _ => 0

/-- The method `_calculate_complexity` (lines 336-350): base 1, plus the
node contributions; a parse failure falls back to `1.0`. -/
def calculate_complexity (parseRes : Except SyntaxErr PyNode) : Nat :=
  match parseRes with
  | .error _ => 1
  | .ok tree => (walk tree).foldl (fun acc n => acc + node_complexity n) 1

/-! ## Metrics, summary and report assembly -/

/-- Count of issues of one `issue_type`. -/
def countType (issues : List Issue) (t : String) : Nat :=
  issues.countP (fun i => i.issue_type = t)

/-- Count of issues of one severity. -/
def countSev (issues : List Issue) (s : Severity) : Nat :=
  issues.countP (fun i => i.severity = s)

/-- The method `_calculate_metrics` (lines 352-379). -/
def calculate_metrics (code : List Char) (issues : List Issue) : Metrics :=
  let lines := splitOnNl code
  let code_lines := lines.filter
    (fun l => !(trimChars l).isEmpty && !(['#'].isPrefixOf (trimChars l)))
  let security_issues := countType issues "security"
  let performance_issues := countType issues "performance"
  let errors := countSev issues .error
  let warnings := countSev issues .warning
  { total_lines := lines.length,
    code_lines := code_lines.length,
    comment_lines := (lines.filter (fun l => ['#'].isPrefixOf (trimChars l))).length,
    blank_lines := (lines.filter (fun l => (trimChars l).isEmpty)).length,
    security_score := max 0 (100 - (security_issues : Int) * 20),
    performance_score := max 0 (100 - (performance_issues : Int) * 10),
    maintainability := max 20 (100 - (errors : Int) * 15 - (warnings : Int) * 5),
    code_to_comment_ratio :=
      (code_lines.length : Rat) / (max 1 (lines.length - code_lines.length) : Nat) }

/-- Python `f"{v:.1f}"` for a value that is an exact integer. -/
def fmt1 (i : Int) : String := toString i ++ ".0"

/-- Python `f"{v:.2f}"` for a value that is an exact integer. -/
def fmt2 (n : Nat) : String := toString n ++ ".00"

/-- The method `_get_score_emoji`. -/
def get_score_emoji (score : Int) : String :=
  if score ≥ 80 then "🟢" else if score ≥ 60 then "🟡" else "🔴"

/-- The method `_get_score_label`. -/
def get_score_label (score : Int) : String :=
  if score ≥ 80 then "Excellent"
  else if score ≥ 60 then "Good"
  else if score ≥ 40 then "Needs Improvement"
  else "Critical"

/-- The method `_generate_recommendations`. -/
def generate_recommendations (issues : List Issue) : String :=
  let recommendations :=
    (if issues.any (fun i => i.issue_type = "security") then
      ["• Fix security vulnerabilities immediately"] else [])
    ++ (if issues.any (fun i => i.issue_type = "performance") then
      ["• Optimize performance bottlenecks"] else [])
  let recommendations :=
    if recommendations.isEmpty then ["• Code quality is good! Keep it up!"]
    else recommendations
  String.intercalate "\n  " recommendations

/-- The method `_generate_summary` (lines 381-416), rendered by string
concatenation; `parse` is needed because the template re-computes the
complexity of the empty string.  The float formats are exact for the
integer values that occur. -/
def generate_summary (parse : List Char → Except SyntaxErr PyNode)
    (issues : List Issue) (metrics : Metrics) : String :=
  let critical := countSev issues .critical
  let errors := countSev issues .error
  let warnings := countSev issues .warning
  let status :=
    if 0 < critical then "🔴 CRITICAL"
    else if 0 < errors then "⚠️ NEEDS ATTENTION"
    else "✅ GOOD"
  "\n╔" ++ String.mk (List.replicate 60 '═') ++ "╗\n║           ENHANCED CODE ANALYSIS REPORT                     ║\n╚" ++ String.mk (List.replicate 60 '═') ++ "╝\n\n📊 OVERVIEW\n  Status: "
    ++ status
    ++ "\n  Total Issues: " ++ toString issues.length
    ++ "\n    🔴 Critical: " ++ toString critical
    ++ "\n    ❌ Errors: " ++ toString errors
    ++ "\n    ⚠️  Warnings: " ++ toString warnings
    ++ "\n    ℹ️  Info: " ++ toString (countSev issues .info)
    ++ "\n\n📈 CODE METRICS\n  Lines of Code: " ++ toString metrics.code_lines
    ++ "\n  Comment Lines: " ++ toString metrics.comment_lines
    ++ "\n  Complexity: " ++ fmt2 (calculate_complexity (parse (cs "")))
    ++ "\n  Maintainability: " ++ fmt1 metrics.maintainability ++ "/100\n\n🔒 SECURITY SCORE: "
    ++ fmt1 metrics.security_score ++ "/100\n  "
    ++ get_score_emoji metrics.security_score ++ " " ++ get_score_label metrics.security_score
    ++ "\n\n⚡ PERFORMANCE SCORE: " ++ fmt1 metrics.performance_score ++ "/100\n  "
    ++ get_score_emoji metrics.performance_score ++ " "
    ++ get_score_label metrics.performance_score
    ++ "\n\n💡 RECOMMENDATIONS\n  " ++ generate_recommendations issues
    ++ "\n"

/-- The method `analyze_code` (lines 42-93).  `parse` stands for `ast.parse`
(deterministic, so its single value at `code` serves every internal parse);
`prevIssues` is the `self.issues` field of the analyzer object before the
call — line 45 (`self.issues = []`) discards it.  The returned pair is the
report together with the `self.issues` field after the call. -/
def analyze_code (parse : List Char → Except SyntaxErr PyNode)
    (prevIssues : List Issue) (code : List Char) (opts : AnalysisOptions) :
    Report × List Issue :=
  let _ := prevIssues
  let parseRes := parse code
  let lines := splitOnNl code
  let is1 := if opts.syntaxOn then check_syntax_pass parseRes else []
  let is2 := is1 ++ (if opts.securityOn then check_security lines else [])
  let is3 := is2 ++ (if opts.performanceOn then check_performance lines else [])
  let is4 := is3 ++ (if opts.codeSmellsOn then check_code_smells lines else [])
  let complexity_score := if opts.complexityOn then calculate_complexity parseRes else 0
  let is5 := is4 ++ (if opts.deadCodeOn then detect_dead_code parseRes else [])
  let issues := is5 ++ (if opts.typeHintsOn then suggest_type_hints lines else [])
  let metrics := calculate_metrics code issues
  let summary := generate_summary parse issues metrics
  ({ total_issues := issues.length,
     critical := countSev issues .critical,
     errors := countSev issues .error,
     warnings := countSev issues .warning,
     info := countSev issues .info,
     complexity_score := complexity_score,
     maintainability_index := metrics.maintainability,
     security_score := metrics.security_score,
     performance_score := metrics.performance_score,
     issues := issues,
     summary := summary,
     metrics := metrics }, issues)

/-- Branch nodes of the complexity rule: conditionals, loops, handlers. -/
def isBranchNode : PyNode → Bool
  | .ifNode .. => true
  | .whileNode .. => true
  | .forNode .. => true
  | .exceptHandler .. => true
  | _ => false

/-- Extra complexity of a boolean combinator node: operand count minus one. -/
def boolOpExtra : PyNode → Nat
  | .boolOp _ vs => vs.length - 1
  | _ => 0

/-- Witness for C7 at the program `if a and b and c:  pass` (one conditional
node and one three-operand boolean combinator: complexity 4). -/
def c7Tree : PyNode :=
  .module [.ifNode 1 (.boolOp 1 [.nameNode 1 "a" .load, .nameNode 1 "b" .load,
    .nameNode 1 "c" .load]) [.passNode 2] []]

/-- Failed parse used by the C10 witness. -/
def c10Err : SyntaxErr := { msg := "invalid syntax", lineno := some 1, text := some "def f(:" }

/-- The tree Python's parser produces for the C1 counterexample program
`try: / pass / except Exception: / pass`. -/
def c1Tree : PyNode :=
  .module [.tryNode 1 [.passNode 2]
    [.exceptHandler 3 (some (.nameNode 3 "Exception" .load)) none [.passNode 4]] [] []]

/-- The C1 counterexample source text. -/
def c1Code : List Char := cs "try:\n    pass\nexcept Exception:\n    pass"

/-- Modelled from the claim's wording, for comparison with the source: the
multiple-concatenations trigger as C4 states it — strictly more than two
plus operators together with a quoted string literal on the line. -/
def claim_concat_trigger (line : List Char) : Bool :=
  decide (2 < line.count '+') && (line.contains '"' || line.contains '\'')

/-- The tree Python's parser produces for the one-line program `x = 'a'`. -/
def c4Tree : PyNode := .module [.assign 1 [.nameNode 1 "x" .store] (.constNode 1)]

/-- The tree Python's parser produces for the C6 counterexample program
`def f(): / def g(): / pass / f()` (a nested function definition whose inner
name is never referenced). -/
def c6Tree : PyNode :=
  .module
    [.functionDef 1 "f" [.functionDef 2 "g" [.passNode 3]],
     .exprStmt 4 (.callNode 4 (.nameNode 4 "f" .load) [])]

/-- The C6 counterexample source text. -/
def c6Code : List Char := cs "def f():\n    def g():\n        pass\nf()"

/-- Modelled from the claim's wording, for comparison with the source: the
defined names as C6 states them — the *top-level* function names plus all
simple-name assignment targets. -/
def claim_defined_names (tree : PyNode) : List String :=
  (match tree with
   | .module body =>
     body.flatMap (fun st =>
       match st with
       | .functionDef _ nm _ => [nm]
       | _ => [])
   | _ => [])
  ++ ((walk tree).flatMap fun n =>
    match n with
    | .assign _ ts _ =>
      ts.flatMap (fun t =>
        match t with
        | .nameNode _ id _ => [id]
        | _ => [])
    | _ => [])

/-- The tree Python's parser produces for `x = 1` followed by `y = 2`
(Scenario C of the specification). -/
def xyTree : PyNode :=
  .module
    [.assign 1 [.nameNode 1 "x" .store] (.constNode 1),
     .assign 2 [.nameNode 2 "y" .store] (.constNode 2)]

/-- Failed parse used by the C5 witness (Scenario D's unparsable input). -/
def c5Err : SyntaxErr := { msg := "invalid syntax", lineno := some 1, text := some "def f(:" }

/-- The invariant the specification requires of every reported issue:
non-empty description, severity and issue type from the closed
enumerations, 1-based line number. -/
def issue_wf (i : Issue) : Bool :=
  decide (i.description ≠ "")
    && decide (i.severity = .critical ∨ i.severity = .error
        ∨ i.severity = .warning ∨ i.severity = .info)
    && decide (i.issue_type = "security" ∨ i.issue_type = "performance"
        ∨ i.issue_type = "style" ∨ i.issue_type = "dead_code"
        ∨ i.issue_type = "type_hint" ∨ i.issue_type = "syntax")
    && decide (1 ≤ i.line_number)

/-- Parse failure with no reported line, used by the C8 witness. -/
def c8Err : SyntaxErr := { msg := "unexpected EOF while parsing", lineno := none, text := none }

/-! ## Basic lemmas about the passes -/

theorem mem_ite_single {α} {c : Prop} [Decidable c] {a x : α}
    (h : x ∈ (if c then [a] else ([] : List α))) : x = a := by
  split at h <;> simp_all

theorem mem_enumFrom {α} : ∀ {k : Nat} {l : List α} {p : Nat × α},
    p ∈ enumFrom k l → k ≤ p.1 := by
  intro k l
  induction l generalizing k with
  | nil => intro p h; simp [enumFrom] at h
  | cons x xs ih =>
    intro p h
    simp only [enumFrom, List.mem_cons] at h
    rcases h with rfl | h
    · simp
    · exact Nat.le_trans (Nat.le_succ k) (ih h)

theorem mem_sec_line {i : Nat} {line : List Char} {x : Issue}
    (h : x ∈ sec_line_issues i line) :
    x.issue_type = "security" ∧ x.description ≠ "" ∧ x.line_number = i
      ∧ (x.severity = .critical ∨ x.severity = .warning) := by
  simp only [sec_line_issues, List.mem_append] at h
  rcases h with ((((h | h) | h) | h) | h) | h <;>
    · obtain rfl := mem_ite_single h
      exact ⟨rfl, by simp, rfl, by simp⟩

theorem mem_perf_line {lines : List (List Char)} {i : Nat} {line : List Char} {x : Issue}
    (h : x ∈ perf_line_issues lines i line) :
    x.issue_type = "performance" ∧ x.description ≠ "" ∧ x.line_number = i
      ∧ (x.severity = .warning ∨ x.severity = .info) := by
  simp only [perf_line_issues, List.mem_append] at h
  rcases h with (h | h) | h
  · split at h
    · obtain rfl := mem_ite_single h
      exact ⟨rfl, by simp, rfl, by simp⟩
    · simp at h
  · obtain rfl := mem_ite_single h
    exact ⟨rfl, by simp, rfl, by simp⟩
  · obtain rfl := mem_ite_single h
    exact ⟨rfl, by simp, rfl, by simp⟩

theorem mem_smell_line {i : Nat} {line : List Char} {x : Issue}
    (h : x ∈ smell_line_issues i line) :
    x.issue_type = "style" ∧ x.description ≠ "" ∧ x.line_number = i
      ∧ (x.severity = .info ∨ x.severity = .warning) := by
  simp only [smell_line_issues, List.mem_append] at h
  rcases h with ((h | h) | h) | h <;>
    · obtain rfl := mem_ite_single h
      exact ⟨rfl, by simp, rfl, by simp⟩

theorem mem_hint_line {i : Nat} {line : List Char} {x : Issue}
    (h : x ∈ hint_line_issues i line) :
    x.issue_type = "type_hint" ∧ x.description ≠ "" ∧ x.line_number = i
      ∧ x.severity = .info := by
  simp only [hint_line_issues] at h
  split at h
  · obtain rfl := mem_ite_single h
    exact ⟨rfl, by simp, rfl, rfl⟩
  · simp at h

theorem mem_check_security {lines : List (List Char)} {x : Issue}
    (h : x ∈ check_security lines) :
    x.issue_type = "security" ∧ x.description ≠ "" ∧ 1 ≤ x.line_number
      ∧ (x.severity = .critical ∨ x.severity = .warning) := by
  simp only [check_security, List.mem_flatMap] at h
  obtain ⟨p, hp, hx⟩ := h
  obtain ⟨h1, h2, h3, h4⟩ := mem_sec_line hx
  exact ⟨h1, h2, h3 ▸ mem_enumFrom hp, h4⟩

theorem mem_check_performance {lines : List (List Char)} {x : Issue}
    (h : x ∈ check_performance lines) :
    x.issue_type = "performance" ∧ x.description ≠ "" ∧ 1 ≤ x.line_number
      ∧ (x.severity = .warning ∨ x.severity = .info) := by
  simp only [check_performance, List.mem_flatMap] at h
  obtain ⟨p, hp, hx⟩ := h
  obtain ⟨h1, h2, h3, h4⟩ := mem_perf_line hx
  exact ⟨h1, h2, h3 ▸ mem_enumFrom hp, h4⟩

theorem mem_check_code_smells {lines : List (List Char)} {x : Issue}
    (h : x ∈ check_code_smells lines) :
    x.issue_type = "style" ∧ x.description ≠ "" ∧ 1 ≤ x.line_number
      ∧ (x.severity = .info ∨ x.severity = .warning) := by
  simp only [check_code_smells, List.mem_flatMap] at h
  obtain ⟨p, hp, hx⟩ := h
  obtain ⟨h1, h2, h3, h4⟩ := mem_smell_line hx
  exact ⟨h1, h2, h3 ▸ mem_enumFrom hp, h4⟩

theorem mem_suggest_type_hints {lines : List (List Char)} {x : Issue}
    (h : x ∈ suggest_type_hints lines) :
    x.issue_type = "type_hint" ∧ x.description ≠ "" ∧ 1 ≤ x.line_number
      ∧ x.severity = .info := by
  simp only [suggest_type_hints, List.mem_flatMap] at h
  obtain ⟨p, hp, hx⟩ := h
  obtain ⟨h1, h2, h3, h4⟩ := mem_hint_line hx
  exact ⟨h1, h2, h3 ▸ mem_enumFrom hp, h4⟩

theorem mem_check_ast_patterns {tree : PyNode} {x : Issue}
    (h : x ∈ check_ast_patterns tree) :
    x.issue_type = "style" ∧ x.description ≠ "" ∧ x.severity = .info
      ∧ ∃ t nm b, PyNode.exceptHandler x.line_number t nm b ∈ walk tree := by
  simp only [check_ast_patterns, List.mem_flatMap] at h
  obtain ⟨n, hn, hx⟩ := h
  cases n <;> simp_all
  case exceptHandler ln t nm b =>
    cases t with
    | none => simp_all
    | some t' =>
      cases t' <;> simp_all
      exact ⟨_, _, _, hn⟩

theorem one_le_lineno_or_one (o : Option Nat) : 1 ≤ lineno_or_one o := by
  match o with
  | none => simp [lineno_or_one]
  | some 0 => simp [lineno_or_one]
  | some (n + 1) => simp [lineno_or_one]

theorem mem_check_syntax_pass {r : Except SyntaxErr PyNode} {x : Issue}
    (h : x ∈ check_syntax_pass r) :
    (x.issue_type = "syntax" ∨ x.issue_type = "style") ∧ x.description ≠ ""
      ∧ (x.severity = .error ∨ x.severity = .info) := by
  match r with
  | .error e =>
    simp only [check_syntax_pass, List.mem_singleton] at h
    subst h
    refine ⟨Or.inl rfl, ?_, Or.inl rfl⟩
    intro hcon
    have h2 := congrArg String.length hcon
    rw [show (syntax_error_issue e).description = "Syntax Error: " ++ e.msg from rfl,
        String.length_append] at h2
    have h3 : ("Syntax Error: " : String).length = 14 := rfl
    have h4 : ("" : String).length = 0 := rfl
    omega
  | .ok tree =>
    have h' : x ∈ check_ast_patterns tree := h
    obtain ⟨h1, h2, h3, _⟩ := mem_check_ast_patterns h'
    exact ⟨Or.inr h1, h2, Or.inr h3⟩

theorem mem_detect_dead_code {r : Except SyntaxErr PyNode} {x : Issue}
    (h : x ∈ detect_dead_code r) :
    x.issue_type = "dead_code" ∧ x.description ≠ "" ∧ x.line_number = 1
      ∧ x.severity = .info := by
  match r with
  | .error e => simp [detect_dead_code] at h
  | .ok tree =>
    simp only [detect_dead_code, List.mem_map] at h
    obtain ⟨n, hn, rfl⟩ := h
    refine ⟨rfl, ?_, rfl, rfl⟩
    intro hcon
    have h2 := congrArg String.length hcon
    rw [show (dead_issue n).description = "Unused variable or function: '" ++ n ++ "'" from rfl,
        String.length_append, String.length_append] at h2
    have h3 : ("Unused variable or function: '" : String).length = 30 := rfl
    have h4 : ("'" : String).length = 1 := rfl
    have h5 : ("" : String).length = 0 := rfl
    omega

/-! ## Counting helpers -/

theorem countType_eq_zero {l : List Issue} {t : String}
    (h : ∀ x ∈ l, x.issue_type ≠ t) : countType l t = 0 := by
  simp only [countType, List.countP_eq_zero, decide_eq_true_eq]
  exact h

theorem countType_append (a b : List Issue) (t : String) :
    countType (a ++ b) t = countType a t + countType b t := by
  simp [countType, List.countP_append]

theorem countSev_append (a b : List Issue) (s : Severity) :
    countSev (a ++ b) s = countSev a s + countSev b s := by
  simp [countSev, List.countP_append]

theorem length_eq_sev_counts (l : List Issue) :
    l.length = countSev l .critical + countSev l .error
      + countSev l .warning + countSev l .info := by
  induction l with
  | nil => simp [countSev]
  | cons x xs ih =>
    cases hx : x.severity <;>
      simp [countSev, List.countP_cons, hx] at ih ⊢ <;> omega

theorem countType_security_ne {lines : List (List Char)} {t : String}
    (ht : t ≠ "security") : countType (check_security lines) t = 0 :=
  countType_eq_zero fun _ hx => (mem_check_security hx).1 ▸ Ne.symm ht

theorem countType_performance_ne {lines : List (List Char)} {t : String}
    (ht : t ≠ "performance") : countType (check_performance lines) t = 0 :=
  countType_eq_zero fun _ hx => (mem_check_performance hx).1 ▸ Ne.symm ht

theorem countType_smells_ne {lines : List (List Char)} {t : String}
    (ht : t ≠ "style") : countType (check_code_smells lines) t = 0 :=
  countType_eq_zero fun _ hx => (mem_check_code_smells hx).1 ▸ Ne.symm ht

theorem countType_hints_ne {lines : List (List Char)} {t : String}
    (ht : t ≠ "type_hint") : countType (suggest_type_hints lines) t = 0 :=
  countType_eq_zero fun _ hx => (mem_suggest_type_hints hx).1 ▸ Ne.symm ht

theorem countType_dead_ne {r : Except SyntaxErr PyNode} {t : String}
    (ht : t ≠ "dead_code") : countType (detect_dead_code r) t = 0 :=
  countType_eq_zero fun _ hx => (mem_detect_dead_code hx).1 ▸ Ne.symm ht

theorem countType_syntax_pass_ne {r : Except SyntaxErr PyNode} {t : String}
    (ht1 : t ≠ "syntax") (ht2 : t ≠ "style") :
    countType (check_syntax_pass r) t = 0 :=
  countType_eq_zero fun _ hx => by
    rcases (mem_check_syntax_pass hx).1 with h | h
    · exact h ▸ Ne.symm ht1
    · exact h ▸ Ne.symm ht2

theorem countP_ite_nil (p : Issue → Bool) (b : Bool) (l : List Issue) :
    List.countP p (if b then l else []) = if b then List.countP p l else 0 := by
  cases b <;> simp

/-- Decomposition of the issue-type counts of an `analyze_code` report into the
six passes' contributions. -/
theorem countType_analyze (parse : List Char → Except SyntaxErr PyNode)
    (prev : List Issue) (code : List Char) (opts : AnalysisOptions) (t : String) :
    countType ((analyze_code parse prev code opts).1.issues) t =
      (if opts.syntaxOn then countType (check_syntax_pass (parse code)) t else 0)
      + (if opts.securityOn then countType (check_security (splitOnNl code)) t else 0)
      + (if opts.performanceOn then countType (check_performance (splitOnNl code)) t else 0)
      + (if opts.codeSmellsOn then countType (check_code_smells (splitOnNl code)) t else 0)
      + (if opts.deadCodeOn then countType (detect_dead_code (parse code)) t else 0)
      + (if opts.typeHintsOn then countType (suggest_type_hints (splitOnNl code)) t else 0) := by
  show countType (_ ++ _ ++ _ ++ _ ++ _ ++ _) t = _
  rw [countType_append, countType_append, countType_append, countType_append,
      countType_append]
  cases opts.syntaxOn <;> cases opts.securityOn <;> cases opts.performanceOn <;>
    cases opts.codeSmellsOn <;> cases opts.deadCodeOn <;> cases opts.typeHintsOn <;>
      simp [countType]

/-! ## Complexity decomposition helpers -/

theorem node_complexity_split (n : PyNode) :
    node_complexity n = (if isBranchNode n then 1 else 0) + boolOpExtra n := by
  cases n <;> simp [node_complexity, isBranchNode, boolOpExtra]

theorem foldl_complexity (l : List PyNode) (a : Nat) :
    l.foldl (fun acc n => acc + node_complexity n) a
      = a + l.countP isBranchNode + (l.map boolOpExtra).sum := by
  induction l generalizing a with
  | nil => simp
  | cons n ns ih =>
    rw [List.foldl_cons, ih, node_complexity_split, List.countP_cons]
    cases hb : isBranchNode n <;> simp [hb] <;> omega

/-! ## Claim theorems -/

/-- C2: for every source text and every options record, the report returned by
`analyze_code` satisfies `total_issues = critical + errors + warnings + info`;
the four severity counts partition the issue list exactly. -/
theorem C2_total_is_severity_sum (parse : List Char → Except SyntaxErr PyNode)
    (prev : List Issue) (code : List Char) (opts : AnalysisOptions) :
    (analyze_code parse prev code opts).1.total_issues
      = (analyze_code parse prev code opts).1.critical
        + (analyze_code parse prev code opts).1.errors
        + (analyze_code parse prev code opts).1.warnings
        + (analyze_code parse prev code opts).1.info := by
  simp only [analyze_code]
  exact length_eq_sev_counts _

/-- C3: for every source text and options, the report's scores satisfy
`security_score = max 0 (100 - 20*s)`, `performance_score = max 0 (100 - 10*p)`
and `maintainability = max 20 (100 - 15*e - 5*w)` where `s`, `p` count the
security and performance issues and `e`, `w` count the Error and Warning
severities; consequently all three scores lie in `[0, 100]` and the
maintainability index is never below `20`. -/
theorem C3_metric_formulas_and_bounds (parse : List Char → Except SyntaxErr PyNode)
    (prev : List Issue) (code : List Char) (opts : AnalysisOptions) :
    (analyze_code parse prev code opts).1.security_score
        = max 0 (100 - 20 * (countType ((analyze_code parse prev code opts).1.issues) "security" : Int))
    ∧ (analyze_code parse prev code opts).1.performance_score
        = max 0 (100 - 10 * (countType ((analyze_code parse prev code opts).1.issues) "performance" : Int))
    ∧ (analyze_code parse prev code opts).1.maintainability_index
        = max 20 (100 - 15 * (countSev ((analyze_code parse prev code opts).1.issues) .error : Int)
            - 5 * (countSev ((analyze_code parse prev code opts).1.issues) .warning : Int))
    ∧ (0 ≤ (analyze_code parse prev code opts).1.security_score
        ∧ (analyze_code parse prev code opts).1.security_score ≤ 100)
    ∧ (0 ≤ (analyze_code parse prev code opts).1.performance_score
        ∧ (analyze_code parse prev code opts).1.performance_score ≤ 100)
    ∧ (20 ≤ (analyze_code parse prev code opts).1.maintainability_index
        ∧ (analyze_code parse prev code opts).1.maintainability_index ≤ 100) := by
  simp only [analyze_code, calculate_metrics]
  refine ⟨by omega, by omega, by omega, ?_, ?_, ?_⟩ <;>
    constructor <;> omega

/-- C7: for every parsable source text with the complexity category enabled,
the returned `complexity_score` equals 1, plus one for every conditional,
loop and exception-handler node of the tree, plus the operand count minus one
for every boolean combinator node; with the category disabled it equals 0. -/
theorem C7_complexity_formula (parse : List Char → Except SyntaxErr PyNode)
    (prev : List Issue) (code : List Char) (opts : AnalysisOptions) (tree : PyNode) :
    (parse code = Except.ok tree → opts.complexityOn = true →
      (analyze_code parse prev code opts).1.complexity_score
        = 1 + (walk tree).countP isBranchNode + ((walk tree).map boolOpExtra).sum)
    ∧ (opts.complexityOn = false →
      (analyze_code parse prev code opts).1.complexity_score = 0) := by
  constructor
  · intro hp hc
    simp only [analyze_code, hc, hp, if_true, calculate_complexity]
    exact foldl_complexity _ _
  · intro hc
    simp [analyze_code, hc]

theorem C7_complexity_formula_witness :
    (analyze_code (fun _ => Except.ok c7Tree) [] (cs "if a and b and c:\n    pass")
        ({} : AnalysisOptions)).1.complexity_score
      = 1 + (walk c7Tree).countP isBranchNode + ((walk c7Tree).map boolOpExtra).sum :=
  (C7_complexity_formula (fun _ => Except.ok c7Tree) [] (cs "if a and b and c:\n    pass")
    {} c7Tree).1 rfl rfl

/-- C9: `analyze_code` retains no cross-call state and is idempotent: the
whole result (report and post-call issue field) does not depend on the
analyzer's prior issue list, and a repeated call with the state produced by a
first call returns the same report.  In the model the report is by
construction a pure function of `(source, options)` (given the parser), which
is exactly what line 45 of the source (`self.issues = []`) enforces. -/
theorem C9_pure_and_idempotent (parse : List Char → Except SyntaxErr PyNode)
    (prev1 prev2 : List Issue) (code : List Char) (opts : AnalysisOptions) :
    analyze_code parse prev1 code opts = analyze_code parse prev2 code opts
    ∧ (analyze_code parse (analyze_code parse prev1 code opts).2 code opts).1
        = (analyze_code parse prev1 code opts).1 :=
  ⟨rfl, rfl⟩

/-- C10: for every source text that fails to parse, with the complexity
category enabled, the reported `complexity_score` is the calculator's fallback
value 1 (not the disabled-category value 0). -/
theorem C10_parse_failure_complexity (parse : List Char → Except SyntaxErr PyNode)
    (prev : List Issue) (code : List Char) (opts : AnalysisOptions) (e : SyntaxErr)
    (hp : parse code = Except.error e) (hc : opts.complexityOn = true) :
    (analyze_code parse prev code opts).1.complexity_score = 1 := by
  simp [analyze_code, hp, hc, calculate_complexity]

theorem C10_parse_failure_complexity_witness :
    (analyze_code (fun _ => Except.error c10Err) [] (cs "def f(:")
        ({} : AnalysisOptions)).1.complexity_score = 1 :=
  C10_parse_failure_complexity (fun _ => Except.error c10Err) [] (cs "def f(:") {} c10Err
    rfl rfl

/-- C1 counterexample: the claim fails on the code.  On the four-line
`try`/`except Exception:` program the whole report holds exactly one style
issue, produced by the tree-pattern check that runs under the *syntax*
toggle: disabling the syntax category changes the style count from 1 to 0
(other categories' counts are not all unchanged), and disabling the
code-smells category does not bring the style count to zero. -/
theorem C1_counterexample :
    countType ((analyze_code (fun _ => Except.ok c1Tree) [] c1Code
        ({} : AnalysisOptions)).1.issues) "style" = 1
    ∧ countType ((analyze_code (fun _ => Except.ok c1Tree) [] c1Code
        { syntaxOn := false }).1.issues) "style" = 0
    ∧ countType ((analyze_code (fun _ => Except.ok c1Tree) [] c1Code
        { codeSmellsOn := false }).1.issues) "style" = 1 :=
  ⟨by decide, by decide, by decide⟩

/-- C1 (amended): disabling the security, performance, dead-code or
type-hints category yields zero issues of the corresponding issue type and
leaves every other issue type's count unchanged.  Disabling the syntax
category yields zero issues of type `syntax` and leaves every type other
than `syntax` and `style` unchanged (the tree-pattern check, which emits
style issues, runs under the syntax toggle).  Disabling the code-smells
category leaves every type other than `style` unchanged (style issues from
the tree-pattern check may remain, so the style count need not drop to
zero). -/
theorem C1_amended (parse : List Char → Except SyntaxErr PyNode)
    (prev : List Issue) (code : List Char) (opts : AnalysisOptions) :
    (countType ((analyze_code parse prev code { opts with securityOn := false }).1.issues)
        "security" = 0
      ∧ ∀ t : String, t ≠ "security" →
        countType ((analyze_code parse prev code { opts with securityOn := false }).1.issues) t
          = countType ((analyze_code parse prev code opts).1.issues) t)
    ∧ (countType ((analyze_code parse prev code { opts with performanceOn := false }).1.issues)
        "performance" = 0
      ∧ ∀ t : String, t ≠ "performance" →
        countType ((analyze_code parse prev code { opts with performanceOn := false }).1.issues) t
          = countType ((analyze_code parse prev code opts).1.issues) t)
    ∧ (countType ((analyze_code parse prev code { opts with deadCodeOn := false }).1.issues)
        "dead_code" = 0
      ∧ ∀ t : String, t ≠ "dead_code" →
        countType ((analyze_code parse prev code { opts with deadCodeOn := false }).1.issues) t
          = countType ((analyze_code parse prev code opts).1.issues) t)
    ∧ (countType ((analyze_code parse prev code { opts with typeHintsOn := false }).1.issues)
        "type_hint" = 0
      ∧ ∀ t : String, t ≠ "type_hint" →
        countType ((analyze_code parse prev code { opts with typeHintsOn := false }).1.issues) t
          = countType ((analyze_code parse prev code opts).1.issues) t)
    ∧ (countType ((analyze_code parse prev code { opts with syntaxOn := false }).1.issues)
        "syntax" = 0
      ∧ ∀ t : String, t ≠ "syntax" → t ≠ "style" →
        countType ((analyze_code parse prev code { opts with syntaxOn := false }).1.issues) t
          = countType ((analyze_code parse prev code opts).1.issues) t)
    ∧ (∀ t : String, t ≠ "style" →
        countType ((analyze_code parse prev code { opts with codeSmellsOn := false }).1.issues) t
          = countType ((analyze_code parse prev code opts).1.issues) t) := by
  refine ⟨⟨?_, ?_⟩, ⟨?_, ?_⟩, ⟨?_, ?_⟩, ⟨?_, ?_⟩, ⟨?_, ?_⟩, ?_⟩
  · rw [countType_analyze,
      countType_syntax_pass_ne (show ("security" : String) ≠ "syntax" from by decide)
        (show ("security" : String) ≠ "style" from by decide),
      countType_performance_ne (show ("security" : String) ≠ "performance" from by decide),
      countType_smells_ne (show ("security" : String) ≠ "style" from by decide),
      countType_dead_ne (show ("security" : String) ≠ "dead_code" from by decide),
      countType_hints_ne (show ("security" : String) ≠ "type_hint" from by decide)]
    simp
  · intro t ht
    rw [countType_analyze, countType_analyze, countType_security_ne ht]
    simp
  · rw [countType_analyze,
      countType_syntax_pass_ne (show ("performance" : String) ≠ "syntax" from by decide)
        (show ("performance" : String) ≠ "style" from by decide),
      countType_security_ne (show ("performance" : String) ≠ "security" from by decide),
      countType_smells_ne (show ("performance" : String) ≠ "style" from by decide),
      countType_dead_ne (show ("performance" : String) ≠ "dead_code" from by decide),
      countType_hints_ne (show ("performance" : String) ≠ "type_hint" from by decide)]
    simp
  · intro t ht
    rw [countType_analyze, countType_analyze, countType_performance_ne ht]
    simp
  · rw [countType_analyze,
      countType_syntax_pass_ne (show ("dead_code" : String) ≠ "syntax" from by decide)
        (show ("dead_code" : String) ≠ "style" from by decide),
      countType_security_ne (show ("dead_code" : String) ≠ "security" from by decide),
      countType_performance_ne (show ("dead_code" : String) ≠ "performance" from by decide),
      countType_smells_ne (show ("dead_code" : String) ≠ "style" from by decide),
      countType_hints_ne (show ("dead_code" : String) ≠ "type_hint" from by decide)]
    simp
  · intro t ht
    rw [countType_analyze, countType_analyze, countType_dead_ne ht]
    simp
  · rw [countType_analyze,
      countType_syntax_pass_ne (show ("type_hint" : String) ≠ "syntax" from by decide)
        (show ("type_hint" : String) ≠ "style" from by decide),
      countType_security_ne (show ("type_hint" : String) ≠ "security" from by decide),
      countType_performance_ne (show ("type_hint" : String) ≠ "performance" from by decide),
      countType_smells_ne (show ("type_hint" : String) ≠ "style" from by decide),
      countType_dead_ne (show ("type_hint" : String) ≠ "dead_code" from by decide)]
    simp
  · intro t ht
    rw [countType_analyze, countType_analyze, countType_hints_ne ht]
    simp
  · rw [countType_analyze,
      countType_security_ne (show ("syntax" : String) ≠ "security" from by decide),
      countType_performance_ne (show ("syntax" : String) ≠ "performance" from by decide),
      countType_smells_ne (show ("syntax" : String) ≠ "style" from by decide),
      countType_dead_ne (show ("syntax" : String) ≠ "dead_code" from by decide),
      countType_hints_ne (show ("syntax" : String) ≠ "type_hint" from by decide)]
    simp
  · intro t ht1 ht2
    rw [countType_analyze, countType_analyze, countType_syntax_pass_ne ht1 ht2]
    simp
  · intro t ht
    rw [countType_analyze, countType_analyze, countType_smells_ne ht]
    simp

/-- Witness for the amended C1: with security disabled on `x = 1`, the
dead-code count is unchanged against the all-enabled run. -/
theorem C1_amended_witness :
    countType ((analyze_code (fun _ => Except.ok (PyNode.module [])) []
        (cs "x = 1") { securityOn := false }).1.issues) "dead_code"
      = countType ((analyze_code (fun _ => Except.ok (PyNode.module [])) []
        (cs "x = 1") ({} : AnalysisOptions)).1.issues) "dead_code" :=
  (C1_amended (fun _ => Except.ok (PyNode.module [])) [] (cs "x = 1") {}).1.2
    "dead_code" (by decide)

/-- C4: the code deviates from the claim.  On the line `x = 'a'` — zero plus
operators, so the claim's trigger is false — the performance pass still emits
the multiple-concatenations Info issue, because the source's condition
`line.count('+') > 2 and DQUOTE in line or QUOTE in line` parses with `and`
binding tighter than `or`, so any line containing a single quote character
triggers the rule.  This contradicts the rule's own description
("Multiple string concatenations"). -/
theorem C4_precedence_divergence :
    claim_concat_trigger (cs "x = 'a'") = false
    ∧ (cs "x = 'a'").count '+' = 0
    ∧ (check_performance [cs "x = 'a'"]).map (fun i => i.description)
        = ["Multiple string concatenations"]
    ∧ countType ((analyze_code (fun _ => Except.ok c4Tree) [] (cs "x = 'a'")
        ({} : AnalysisOptions)).1.issues) "performance" = 1 :=
  ⟨by decide, by decide, by decide, by decide⟩

/-! ## Filter helpers for issue types -/

theorem filter_type_nil {l : List Issue} {t : String} (h : ∀ x ∈ l, x.issue_type ≠ t) :
    l.filter (fun i => i.issue_type = t) = [] :=
  List.filter_eq_nil_iff.mpr (fun a ha => by simp [h a ha])

theorem filter_type_self {l : List Issue} {t : String} (h : ∀ x ∈ l, x.issue_type = t) :
    l.filter (fun i => i.issue_type = t) = l :=
  List.filter_eq_self.mpr (fun a ha => by simp [h a ha])

theorem filter_type_ite_nil {c : Prop} [Decidable c] {l : List Issue} {t : String}
    (h : ∀ x ∈ l, x.issue_type ≠ t) :
    (if c then l else []).filter (fun i => i.issue_type = t) = [] := by
  split
  · exact filter_type_nil h
  · rfl

theorem filter_not_type_self {l : List Issue} {t : String} (h : ∀ x ∈ l, x.issue_type ≠ t) :
    l.filter (fun i => ¬(i.issue_type = t)) = l :=
  List.filter_eq_self.mpr (fun a ha => by simp [h a ha])

theorem filter_not_type_ite_self {c : Prop} [Decidable c] {l : List Issue} {t : String}
    (h : ∀ x ∈ l, x.issue_type ≠ t) :
    (if c then l else []).filter (fun i => ¬(i.issue_type = t))
      = (if c then l else []) := by
  split
  · exact filter_not_type_self h
  · rfl

theorem syntax_pass_ne_dead {r : Except SyntaxErr PyNode} :
    ∀ x ∈ check_syntax_pass r, x.issue_type ≠ "dead_code" := fun _ hx => by
  rcases (mem_check_syntax_pass hx).1 with h | h <;> simp [h]

theorem dead_issue_inj {a b : String} (h : dead_issue a = dead_issue b) : a = b := by
  have h2 : "Unused variable or function: '" ++ a ++ "'"
      = "Unused variable or function: '" ++ b ++ "'" := congrArg Issue.description h
  have h3 := congrArg String.data h2
  simp only [String.data_append] at h3
  exact String.ext (List.append_cancel_left (List.append_cancel_right h3))

theorem mem_map_dead_issue {L : List String} {n : String} :
    dead_issue n ∈ L.map dead_issue ↔ n ∈ L := by
  constructor
  · intro h
    obtain ⟨m, hm, heq⟩ := List.mem_map.mp h
    exact (dead_issue_inj heq) ▸ hm
  · intro h
    exact List.mem_map.mpr ⟨n, h, rfl⟩

/-! ## C6 -/

/-- C6 counterexample: the claim fails on the code.  On a program with an
unused *nested* function `g`, the claim's defined-name set (top-level
functions plus assignment targets) marks nothing as dead, yet the dead-code
pass — which collects function names at every nesting depth via the full
tree walk — reports `g`, so the report carries one dead_code issue where the
claim predicts none. -/
theorem C6_counterexample :
    (claim_defined_names c6Tree).filter
        (fun n => !((used_names c6Tree).contains n)
          && !((cs "_").isPrefixOf (cs n))) = []
    ∧ detect_dead_code (Except.ok c6Tree) = [dead_issue "g"]
    ∧ countType ((analyze_code (fun _ => Except.ok c6Tree) [] c6Code
        ({} : AnalysisOptions)).1.issues) "dead_code" = 1 :=
  ⟨by decide, by decide, by decide⟩

theorem contains_eq_false_iff (l : List String) (a : String) :
    l.contains a = false ↔ a ∉ l := by
  rw [Bool.eq_false_iff]
  constructor
  · intro h hmem
    exact h (List.elem_iff.mpr hmem)
  · intro h hc
    exact h (List.elem_iff.mp hc)

theorem mem_unused_iff (tree : PyNode) (n : String) :
    n ∈ ((defined_names tree).dedup.filter
        (fun m => !((used_names tree).contains m))).filter
        (fun m => !((cs "_").isPrefixOf (cs m)))
      ↔ (n ∈ defined_names tree ∧ n ∉ used_names tree
          ∧ ¬((cs "_").isPrefixOf (cs n) = true)) := by
  rw [List.mem_filter, List.mem_filter, List.mem_dedup]
  constructor
  · rintro ⟨⟨h1, h2⟩, h3⟩
    rw [Bool.not_eq_true'] at h2 h3
    exact ⟨h1, (contains_eq_false_iff _ _).mp h2, Bool.eq_false_iff.mp h3⟩
  · rintro ⟨h1, h2, h3⟩
    refine ⟨⟨h1, ?_⟩, ?_⟩
    · rw [Bool.not_eq_true']
      exact (contains_eq_false_iff _ _).mpr h2
    · rw [Bool.not_eq_true']
      exact Bool.eq_false_iff.mpr h3

/-- C6 (amended): for every parsable source with the dead-code category
enabled, the dead_code issues of the report are exactly one Info issue at
line 1 for every name that is defined — where the defined names are the
function names at **every** nesting depth (the pass walks the whole tree)
together with all simple-name assignment targets — absent from the names
read in load context, and not beginning with an underscore; and no others. -/
theorem C6_amended (parse : List Char → Except SyntaxErr PyNode)
    (prev : List Issue) (code : List Char) (opts : AnalysisOptions) (tree : PyNode)
    (hp : parse code = Except.ok tree) (hd : opts.deadCodeOn = true) :
    ((analyze_code parse prev code opts).1.issues.filter
        (fun i => i.issue_type = "dead_code")
      = (((defined_names tree).dedup.filter
          (fun m => !((used_names tree).contains m))).filter
          (fun m => !((cs "_").isPrefixOf (cs m)))).map dead_issue)
    ∧ (∀ i ∈ (analyze_code parse prev code opts).1.issues.filter
          (fun i => i.issue_type = "dead_code"),
        i.line_number = 1 ∧ i.severity = .info)
    ∧ (∀ n : String,
        dead_issue n ∈ (analyze_code parse prev code opts).1.issues.filter
            (fun i => i.issue_type = "dead_code")
          ↔ (n ∈ defined_names tree ∧ n ∉ used_names tree
              ∧ ¬((cs "_").isPrefixOf (cs n) = true))) := by
  have hiss : (analyze_code parse prev code opts).1.issues
      = (if opts.syntaxOn then check_syntax_pass (parse code) else [])
        ++ (if opts.securityOn then check_security (splitOnNl code) else [])
        ++ (if opts.performanceOn then check_performance (splitOnNl code) else [])
        ++ (if opts.codeSmellsOn then check_code_smells (splitOnNl code) else [])
        ++ (if opts.deadCodeOn then detect_dead_code (parse code) else [])
        ++ (if opts.typeHintsOn then suggest_type_hints (splitOnNl code) else []) := rfl
  have hfilter : (analyze_code parse prev code opts).1.issues.filter
      (fun i => i.issue_type = "dead_code")
      = detect_dead_code (parse code) := by
    have f1 : (if opts.syntaxOn then check_syntax_pass (parse code) else []).filter
        (fun i => i.issue_type = "dead_code") = [] :=
      filter_type_ite_nil syntax_pass_ne_dead
    have f2 : (if opts.securityOn then check_security (splitOnNl code) else []).filter
        (fun i => i.issue_type = "dead_code") = [] :=
      filter_type_ite_nil (fun x hx => by simp [(mem_check_security hx).1])
    have f3 : (if opts.performanceOn then check_performance (splitOnNl code) else []).filter
        (fun i => i.issue_type = "dead_code") = [] :=
      filter_type_ite_nil (fun x hx => by simp [(mem_check_performance hx).1])
    have f4 : (if opts.codeSmellsOn then check_code_smells (splitOnNl code) else []).filter
        (fun i => i.issue_type = "dead_code") = [] :=
      filter_type_ite_nil (fun x hx => by simp [(mem_check_code_smells hx).1])
    have f6 : (if opts.typeHintsOn then suggest_type_hints (splitOnNl code) else []).filter
        (fun i => i.issue_type = "dead_code") = [] :=
      filter_type_ite_nil (fun x hx => by simp [(mem_suggest_type_hints hx).1])
    have f5 : (if opts.deadCodeOn then detect_dead_code (parse code) else []).filter
        (fun i => i.issue_type = "dead_code") = detect_dead_code (parse code) := by
      rw [hd]
      simp only [if_true]
      exact filter_type_self (fun x hx => (mem_detect_dead_code hx).1)
    rw [hiss, List.filter_append, List.filter_append, List.filter_append,
      List.filter_append, List.filter_append, f1, f2, f3, f4, f5, f6]
    simp
  refine ⟨?_, ?_, ?_⟩
  · rw [hfilter, hp]
    rfl
  · intro i hi
    rw [hfilter, hp] at hi
    simp only [detect_dead_code, List.mem_map] at hi
    obtain ⟨n, _, rfl⟩ := hi
    exact ⟨rfl, rfl⟩
  · intro n
    rw [hfilter, hp]
    show dead_issue n ∈ List.map dead_issue _ ↔ _
    rw [mem_map_dead_issue]
    exact mem_unused_iff tree n

theorem C6_amended_witness :
    ((analyze_code (fun _ => Except.ok xyTree) [] (cs "x = 1\ny = 2\n")
        ({} : AnalysisOptions)).1.issues.filter
      (fun i => i.issue_type = "dead_code"))
      = (((defined_names xyTree).dedup.filter
          (fun m => !((used_names xyTree).contains m))).filter
          (fun m => !((cs "_").isPrefixOf (cs m)))).map dead_issue :=
  (C6_amended (fun _ => Except.ok xyTree) [] (cs "x = 1\ny = 2\n") {} xyTree rfl rfl).1

/-! ## C5 -/

theorem mem_of_mem_ite {α} {c : Prop} [Decidable c] {l : List α} {x : α}
    (h : x ∈ if c then l else []) : x ∈ l := by
  split at h
  · exact h
  · exact absurd h (by simp)

/-- C5: on every parse failure with the syntax category enabled, the report
holds exactly one issue of type `syntax` — Error severity, located at the
reported failure line (or 1 when none is reported), carrying the
missing-delimiters suggestion when the failure message is `invalid syntax`
and the unclosed-brackets suggestion when the message reports an unexpected
end of input (the parser marks those messages with `EOF`) — while the
remaining issues are exactly the output of the text-based passes, which run
unaffected; the tree-based checks contribute nothing. -/
theorem C5_parse_failure_single_issue (parse : List Char → Except SyntaxErr PyNode)
    (prev : List Issue) (code : List Char) (opts : AnalysisOptions) (e : SyntaxErr)
    (hp : parse code = Except.error e) (hs : opts.syntaxOn = true) :
    ((analyze_code parse prev code opts).1.issues.filter
        (fun i => i.issue_type = "syntax") = [syntax_error_issue e])
    ∧ (syntax_error_issue e).severity = .error
    ∧ (syntax_error_issue e).line_number = lineno_or_one e.lineno
    ∧ ((analyze_code parse prev code opts).1.issues.filter
        (fun i => ¬(i.issue_type = "syntax"))
        = (if opts.securityOn then check_security (splitOnNl code) else [])
          ++ (if opts.performanceOn then check_performance (splitOnNl code) else [])
          ++ (if opts.codeSmellsOn then check_code_smells (splitOnNl code) else [])
          ++ (if opts.typeHintsOn then suggest_type_hints (splitOnNl code) else []))
    ∧ (e.msg = "invalid syntax" →
        (syntax_error_issue e).suggested_fix
          = some "Check for missing colons, parentheses, or quotes")
    ∧ (containsSub (cs "EOF") (cs e.msg) = true →
        containsSub (cs "invalid syntax") (cs e.msg) = false →
        (syntax_error_issue e).suggested_fix
          = some "Check for unclosed brackets, quotes, or parentheses") := by
  have hseg1 : (if opts.syntaxOn then check_syntax_pass (parse code) else [])
      = [syntax_error_issue e] := by
    rw [hs, hp]
    simp [check_syntax_pass]
  have hseg5 : (if opts.deadCodeOn then detect_dead_code (parse code) else [])
      = ([] : List Issue) := by
    rw [hp]
    simp [detect_dead_code]
  have hiss : (analyze_code parse prev code opts).1.issues
      = (if opts.syntaxOn then check_syntax_pass (parse code) else [])
        ++ (if opts.securityOn then check_security (splitOnNl code) else [])
        ++ (if opts.performanceOn then check_performance (splitOnNl code) else [])
        ++ (if opts.codeSmellsOn then check_code_smells (splitOnNl code) else [])
        ++ (if opts.deadCodeOn then detect_dead_code (parse code) else [])
        ++ (if opts.typeHintsOn then suggest_type_hints (splitOnNl code) else []) := rfl
  rw [hseg1, hseg5] at hiss
  refine ⟨?_, rfl, rfl, ?_, ?_, ?_⟩
  · rw [hiss, List.filter_append, List.filter_append, List.filter_append,
      List.filter_append, List.filter_append]
    have n2 : (if opts.securityOn then check_security (splitOnNl code) else []).filter
        (fun i => i.issue_type = "syntax") = [] :=
      filter_type_ite_nil (fun x hx => by simp [(mem_check_security hx).1])
    have n3 : (if opts.performanceOn then check_performance (splitOnNl code) else []).filter
        (fun i => i.issue_type = "syntax") = [] :=
      filter_type_ite_nil (fun x hx => by simp [(mem_check_performance hx).1])
    have n4 : (if opts.codeSmellsOn then check_code_smells (splitOnNl code) else []).filter
        (fun i => i.issue_type = "syntax") = [] :=
      filter_type_ite_nil (fun x hx => by simp [(mem_check_code_smells hx).1])
    have n6 : (if opts.typeHintsOn then suggest_type_hints (splitOnNl code) else []).filter
        (fun i => i.issue_type = "syntax") = [] :=
      filter_type_ite_nil (fun x hx => by simp [(mem_suggest_type_hints hx).1])
    rw [n2, n3, n4, n6]
    simp [syntax_error_issue]
  · rw [hiss, List.filter_append, List.filter_append, List.filter_append,
      List.filter_append, List.filter_append]
    have m1 : ([syntax_error_issue e] : List Issue).filter
        (fun i => ¬(i.issue_type = "syntax")) = [] := by
      simp [syntax_error_issue]
    have m2 : (if opts.securityOn then check_security (splitOnNl code) else []).filter
        (fun i => ¬(i.issue_type = "syntax"))
        = (if opts.securityOn then check_security (splitOnNl code) else []) :=
      filter_not_type_ite_self (fun x hx => by simp [(mem_check_security hx).1])
    have m3 : (if opts.performanceOn then check_performance (splitOnNl code) else []).filter
        (fun i => ¬(i.issue_type = "syntax"))
        = (if opts.performanceOn then check_performance (splitOnNl code) else []) :=
      filter_not_type_ite_self (fun x hx => by simp [(mem_check_performance hx).1])
    have m4 : (if opts.codeSmellsOn then check_code_smells (splitOnNl code) else []).filter
        (fun i => ¬(i.issue_type = "syntax"))
        = (if opts.codeSmellsOn then check_code_smells (splitOnNl code) else []) :=
      filter_not_type_ite_self (fun x hx => by simp [(mem_check_code_smells hx).1])
    have m6 : (if opts.typeHintsOn then suggest_type_hints (splitOnNl code) else []).filter
        (fun i => ¬(i.issue_type = "syntax"))
        = (if opts.typeHintsOn then suggest_type_hints (splitOnNl code) else []) :=
      filter_not_type_ite_self (fun x hx => by simp [(mem_suggest_type_hints hx).1])
    rw [m1, m2, m3, m4, m6]
    simp
  · intro hmsg
    show suggest_syntax_fix e = _
    simp only [suggest_syntax_fix]
    rw [hmsg]
    decide
  · intro h1 h2
    show suggest_syntax_fix e = _
    simp only [suggest_syntax_fix]
    rw [h1, h2]
    simp

theorem C5_parse_failure_single_issue_witness :
    ((analyze_code (fun _ => Except.error c5Err) [] (cs "def f(:")
        ({} : AnalysisOptions)).1.issues.filter
      (fun i => i.issue_type = "syntax")) = [syntax_error_issue c5Err]
    ∧ (syntax_error_issue c5Err).suggested_fix
        = some "Check for missing colons, parentheses, or quotes" :=
  ⟨(C5_parse_failure_single_issue (fun _ => Except.error c5Err) [] (cs "def f(:")
      {} c5Err rfl rfl).1,
   (C5_parse_failure_single_issue (fun _ => Except.error c5Err) [] (cs "def f(:")
      {} c5Err rfl rfl).2.2.2.2.1 rfl⟩

/-! ## C8 -/

/-- C8: every issue the analyzer appends, for any source text and options,
carries a non-empty description, a severity from the closed enumeration, an
issue type from the closed enumeration, and a line number of at least 1 —
including the parse-failure issue when the parser reports no line.  The
hypothesis states well-formedness of the external parser's output: handler
nodes carry 1-based line numbers, as Python's `ast` guarantees. -/
theorem C8_issue_invariants (parse : List Char → Except SyntaxErr PyNode)
    (prev : List Issue) (code : List Char) (opts : AnalysisOptions)
    (hwf : ∀ tree, parse code = Except.ok tree →
      ∀ ln t nm b, PyNode.exceptHandler ln t nm b ∈ walk tree → 1 ≤ ln) :
    ((analyze_code parse prev code opts).1.issues).all issue_wf = true := by
  rw [List.all_eq_true]
  intro i hi
  have hiss : (analyze_code parse prev code opts).1.issues
      = (if opts.syntaxOn then check_syntax_pass (parse code) else [])
        ++ (if opts.securityOn then check_security (splitOnNl code) else [])
        ++ (if opts.performanceOn then check_performance (splitOnNl code) else [])
        ++ (if opts.codeSmellsOn then check_code_smells (splitOnNl code) else [])
        ++ (if opts.deadCodeOn then detect_dead_code (parse code) else [])
        ++ (if opts.typeHintsOn then suggest_type_hints (splitOnNl code) else []) := rfl
  rw [hiss] at hi
  simp only [List.mem_append] at hi
  have key : i.description ≠ ""
      ∧ (i.issue_type = "security" ∨ i.issue_type = "performance"
          ∨ i.issue_type = "style" ∨ i.issue_type = "dead_code"
          ∨ i.issue_type = "type_hint" ∨ i.issue_type = "syntax")
      ∧ 1 ≤ i.line_number := by
    rcases hi with ((((hi | hi) | hi) | hi) | hi) | hi
    · have hi' := mem_of_mem_ite hi
      cases hpc : parse code with
      | error e =>
        rw [hpc] at hi'
        obtain ⟨ht, hd, _⟩ := mem_check_syntax_pass hi'
        have hline : 1 ≤ i.line_number := by
          have : i = syntax_error_issue e := by
            simpa [check_syntax_pass] using hi'
          rw [this]
          exact one_le_lineno_or_one e.lineno
        refine ⟨hd, ?_, hline⟩
        rcases ht with h | h
        · exact Or.inr (Or.inr (Or.inr (Or.inr (Or.inr h))))
        · exact Or.inr (Or.inr (Or.inl h))
      | ok tree =>
        rw [hpc] at hi'
        obtain ⟨ht, hd, _, t, nm, b, hmem⟩ := mem_check_ast_patterns hi'
        exact ⟨hd, Or.inr (Or.inr (Or.inl ht)), hwf tree hpc _ t nm b hmem⟩
    · obtain ⟨h1, h2, h3, _⟩ := mem_check_security (mem_of_mem_ite hi)
      exact ⟨h2, Or.inl h1, h3⟩
    · obtain ⟨h1, h2, h3, _⟩ := mem_check_performance (mem_of_mem_ite hi)
      exact ⟨h2, Or.inr (Or.inl h1), h3⟩
    · obtain ⟨h1, h2, h3, _⟩ := mem_check_code_smells (mem_of_mem_ite hi)
      exact ⟨h2, Or.inr (Or.inr (Or.inl h1)), h3⟩
    · obtain ⟨h1, h2, h3, _⟩ := mem_detect_dead_code (mem_of_mem_ite hi)
      exact ⟨h2, Or.inr (Or.inr (Or.inr (Or.inl h1))), h3 ▸ Nat.le_refl 1⟩
    · obtain ⟨h1, h2, h3, _⟩ := mem_suggest_type_hints (mem_of_mem_ite hi)
      exact ⟨h2, Or.inr (Or.inr (Or.inr (Or.inr (Or.inl h1)))), h3⟩
  have hsev : i.severity = .critical ∨ i.severity = .error
      ∨ i.severity = .warning ∨ i.severity = .info := by
    cases i.severity <;> simp
  simp only [issue_wf, Bool.and_eq_true, decide_eq_true_eq]
  exact ⟨⟨⟨key.1, hsev⟩, key.2.1⟩, key.2.2⟩

theorem C8_issue_invariants_witness :
    ((analyze_code (fun _ => Except.error c8Err) [] (cs "x = eval(s")
        ({} : AnalysisOptions)).1.issues).all issue_wf = true :=
  C8_issue_invariants (fun _ => Except.error c8Err) [] (cs "x = eval(s") {}
    (fun _ h => nomatch h)
